import Mathlib

/-!
Verification development for the BattSafe firmware core (3_Firmware/src).

The C sources are shallowly embedded: C `float` values become `F`, a rational
number or NaN (comparisons with NaN are false, arithmetic propagates NaN,
mirroring the IEEE behaviour the code relies on; rounding is abstracted by
exact rationals); machine integers become `Nat`/`Int` with explicit masks
where overflow matters; byte-oriented frames become `List Nat` of byte
values.  Each definition mirrors one function of the source.
-/

/-- Embedded C `float`: a rational payload or NaN.  No infinities arise in
the modelled code paths. -/
inductive F where
  | nan : F
  | num : ℚ → F
deriving DecidableEq

/-- Float addition; NaN propagates. -/
def F.add : F → F → F
  | F.num a, F.num b => F.num (a + b)
  | _, _ => F.nan

/-- Float subtraction; NaN propagates. -/
def F.sub : F → F → F
  | F.num a, F.num b => F.num (a - b)
  | _, _ => F.nan

/-- Float multiplication; NaN propagates. -/
def F.mul : F → F → F
  | F.num a, F.num b => F.num (a * b)
  | _, _ => F.nan

/-- Float division; NaN propagates, division by zero gives NaN (never hit by
the modelled code, which divides only by nonzero constants). -/
def F.div : F → F → F
  | F.num a, F.num b => if b = 0 then F.nan else F.num (a / b)
  | _, _ => F.nan

/-- Float negation. -/
def F.neg : F → F
  | F.num a => F.num (-a)
  | F.nan => F.nan

/-- Float strict comparison `a < b`; any comparison with NaN is false. -/
def F.lt : F → F → Bool
  | F.num a, F.num b => decide (a < b)
  | _, _ => false

/-- Float comparison `a ≤ b`; any comparison with NaN is false. -/
def F.le : F → F → Bool
  | F.num a, F.num b => decide (a ≤ b)
  | _, _ => false

/-- Truncation toward zero to an integer, as a C cast `(int)v` does for
in-range values.  NaN is mapped to 0 (the C cast is undefined there). -/
def F.truncInt : F → Int
  | F.nan => 0
  | F.num q => if 0 ≤ q then ⌊q⌋ else -⌊-q⌋

/-- Truncation toward zero to a natural number, for casts to unsigned types
applied by the code only to nonnegative in-range values. -/
def F.truncNat (x : F) : Nat := x.truncInt.toNat

/-- uint16 wrap-around. -/
def u16 (n : Nat) : Nat := n % 65536

/-- uint32 wrap-around. -/
def u32 (n : Nat) : Nat := n % 4294967296

/-! ## Anomaly evaluator data model (anomaly_eval.h) -/

/-- Threshold record `anomaly_thresholds_t`. -/
structure AnomalyThresholds where
  voltage_low_v : F
  voltage_high_v : F
  group_v_deviation_mv : F
  v_spread_warn_mv : F
  v_spread_crit_mv : F
  current_warning_a : F
  current_short_a : F
  r_int_warning_mohm : F
  temp_warning_c : F
  temp_critical_c : F
  dt_dt_warning : F
  inter_module_dt_warn_c : F
  inter_module_dt_crit_c : F
  intra_module_dt_warn_c : F
  intra_module_dt_crit_c : F
  delta_t_ambient_warning : F
  temp_emergency_c : F
  dt_dt_emergency : F
  current_emergency_a : F
  gas_warning_ratio : F
  gas_critical_ratio : F
  pressure_warning_hpa : F
  pressure_critical_hpa : F
  coolant_dt_min_c : F
  swelling_warning_pct : F
deriving DecidableEq

/-- Per-module data `module_data_t`. -/
structure ModuleData where
  group_voltages_v : Fin 13 → F
  ntc1_c : F
  ntc2_c : F
  swelling_pct : F
  max_dt_dt : F
  delta_t_intra : F
  module_voltage : F
  mean_group_v : F
  v_spread_mv : F

/-- Full pack snapshot `sensor_snapshot_t`. -/
structure SensorSnapshot where
  pack_voltage_v : F
  pack_current_a : F
  r_internal_mohm : F
  modules : Fin 8 → ModuleData
  temp_ambient_c : F
  coolant_inlet_c : F
  coolant_outlet_c : F
  gas_ratio_1 : F
  gas_ratio_2 : F
  pressure_delta_1_hpa : F
  pressure_delta_2_hpa : F
  humidity_pct : F
  isolation_mohm : F
  dt_dt_max : F
  v_spread_mv : F
  temp_spread_c : F
  t_core_est_c : F
  dr_dt_mohm_per_s : F
  coolant_delta_t : F
  hotspot_module : Nat
  hotspot_group : Nat
  hotspot_temp_c : F
  short_circuit : Bool

/-- Evaluation result `anomaly_result_t`. -/
structure AnomalyResult where
  active_mask : Nat
  active_count : Nat
  is_short_circuit : Bool
  is_emergency_direct : Bool
  hotspot_module : Nat
  anomaly_modules_mask : Nat
  risk_factor : F
  cascade_stage : Nat
deriving DecidableEq

/-! ## Correlation engine (correlation_engine.c) -/

/-- `system_state_t`. -/
inductive SystemState where
  | STATE_NORMAL : SystemState
  | STATE_WARNING : SystemState
  | STATE_CRITICAL : SystemState
  | STATE_EMERGENCY : SystemState
deriving DecidableEq

/-- Numeric value of a `system_state_t` as the C enum lays it out. -/
def SystemState.toNat : SystemState → Nat
  | SystemState.STATE_NORMAL => 0
  | SystemState.STATE_WARNING => 1
  | SystemState.STATE_CRITICAL => 2
  | SystemState.STATE_EMERGENCY => 3

/-- Correlation engine context `correlation_engine_t` as used by
correlation_engine.c (uint16 counters, uint32 statistics). -/
structure CorrEngine where
  current_state : SystemState
  critical_countdown : Nat
  critical_countdown_limit : Nat
  deescalation_counter : Nat
  deescalation_limit : Nat
  emergency_latched : Bool
  emergency_recovery_counter : Nat
  emergency_recovery_limit : Nat
  hotspot_module : Nat
  anomaly_modules_mask : Nat
  risk_factor : F
  cascade_stage : Nat
  total_evaluations : Nat
  warning_count : Nat
  critical_count : Nat
  emergency_count : Nat
deriving DecidableEq

/-- `correlation_engine_init`: the freshly constructed engine. -/
def correlation_engine_init : CorrEngine where
  current_state := SystemState.STATE_NORMAL
  critical_countdown := 0
  critical_countdown_limit := 20
  deescalation_counter := 0
  deescalation_limit := 10
  emergency_latched := false
  emergency_recovery_counter := 0
  emergency_recovery_limit := 10
  hotspot_module := 0
  anomaly_modules_mask := 0
  risk_factor := F.num 0
  cascade_stage := 0
  total_evaluations := 0
  warning_count := 0
  critical_count := 0
  emergency_count := 0

/-- `correlation_engine_reset` re-initialises all fields. -/
def correlation_engine_reset (_ : CorrEngine) : CorrEngine :=
  correlation_engine_init

/-- `correlation_engine_update`: one step of the latching state machine.
Returns the mutated engine and the returned `system_state_t`. -/
def correlation_engine_update (engine : CorrEngine) (anomaly : AnomalyResult) :
    CorrEngine × SystemState :=
  let engine := { engine with
    total_evaluations := u32 (engine.total_evaluations + 1),
    hotspot_module := anomaly.hotspot_module,
    anomaly_modules_mask := anomaly.anomaly_modules_mask,
    risk_factor := anomaly.risk_factor,
    cascade_stage := anomaly.cascade_stage }
  if engine.emergency_latched then
    if anomaly.is_short_circuit || anomaly.is_emergency_direct ||
        decide (0 < anomaly.active_count) then
      ({ engine with
          emergency_recovery_counter := 0,
          emergency_count := u32 (engine.emergency_count + 1) },
       SystemState.STATE_EMERGENCY)
    else
      let engine := { engine with
        emergency_recovery_counter := u16 (engine.emergency_recovery_counter + 1) }
      if engine.emergency_recovery_limit ≤ engine.emergency_recovery_counter then
        ({ engine with
            emergency_latched := false,
            emergency_recovery_counter := 0,
            current_state := SystemState.STATE_NORMAL,
            deescalation_counter := 0,
            critical_countdown := 0 },
         SystemState.STATE_NORMAL)
      else
        ({ engine with emergency_count := u32 (engine.emergency_count + 1) },
         SystemState.STATE_EMERGENCY)
  else if anomaly.is_short_circuit then
    ({ engine with
        current_state := SystemState.STATE_EMERGENCY,
        emergency_latched := true,
        emergency_recovery_counter := 0,
        emergency_count := u32 (engine.emergency_count + 1) },
     SystemState.STATE_EMERGENCY)
  else if anomaly.is_emergency_direct then
    ({ engine with
        current_state := SystemState.STATE_EMERGENCY,
        emergency_latched := true,
        emergency_recovery_counter := 0,
        emergency_count := u32 (engine.emergency_count + 1) },
     SystemState.STATE_EMERGENCY)
  else if 3 ≤ anomaly.active_count then
    ({ engine with
        current_state := SystemState.STATE_EMERGENCY,
        emergency_latched := true,
        emergency_recovery_counter := 0,
        emergency_count := u32 (engine.emergency_count + 1) },
     SystemState.STATE_EMERGENCY)
  else if 2 ≤ anomaly.active_count then
    let engine :=
      if engine.current_state ≠ SystemState.STATE_CRITICAL then
        { engine with
          current_state := SystemState.STATE_CRITICAL,
          critical_countdown := 0 }
      else engine
    let engine := { engine with
      critical_countdown := u16 (engine.critical_countdown + 1),
      critical_count := u32 (engine.critical_count + 1),
      deescalation_counter := 0 }
    if engine.critical_countdown_limit ≤ engine.critical_countdown then
      ({ engine with
          current_state := SystemState.STATE_EMERGENCY,
          emergency_latched := true,
          emergency_recovery_counter := 0,
          emergency_count := u32 (engine.emergency_count + 1) },
       SystemState.STATE_EMERGENCY)
    else
      (engine, SystemState.STATE_CRITICAL)
  else if anomaly.active_count = 1 then
    ({ engine with
        current_state := SystemState.STATE_WARNING,
        critical_countdown := 0,
        deescalation_counter := 0,
        warning_count := u32 (engine.warning_count + 1) },
     SystemState.STATE_WARNING)
  else
    let engine :=
      if engine.current_state ≠ SystemState.STATE_NORMAL then
        let engine := { engine with
          deescalation_counter := u16 (engine.deescalation_counter + 1) }
        if engine.deescalation_limit ≤ engine.deescalation_counter then
          { engine with
            current_state := SystemState.STATE_NORMAL,
            deescalation_counter := 0 }
        else engine
      else engine
    let engine := { engine with critical_countdown := 0 }
    (engine, engine.current_state)

/-! ## Scheduler timing helpers (main.c) -/

/-- `ms_to_cycles` (main.c): ceiling division with uint32 arithmetic,
clamped to 1..65535. -/
def ms_to_cycles (window_ms period_ms : Nat) : Nat :=
  if period_ms = 0 then 1
  else
    let cycles := u32 (window_ms + period_ms - 1) / period_ms
    if cycles = 0 then 1
    else if 65535 < cycles then 65535
    else cycles

/-- `CRITICAL_HOLD_MS`. -/
def CRITICAL_HOLD_MS : Nat := 10000

/-- `DEESCALATION_HOLD_MS`. -/
def DEESCALATION_HOLD_MS : Nat := 5000

/-- `correlation_sync_timing_limits` (main.c): recompute the engine's cycle
limits from the current medium-loop period. -/
def correlation_sync_timing_limits (corr : CorrEngine) (med_loop_ms : Nat) :
    CorrEngine :=
  { corr with
    critical_countdown_limit := ms_to_cycles CRITICAL_HOLD_MS med_loop_ms,
    deescalation_limit := ms_to_cycles DEESCALATION_HOLD_MS med_loop_ms }

/-- Scheduler timing state: the relevant main.c globals. -/
structure Sched where
  uptime_ms : Nat
  fast_loop_ms : Nat
  med_loop_ms : Nat
  slow_loop_ms : Nat
  next_fast_ms : Nat
  next_med_ms : Nat
  next_slow_ms : Nat
deriving DecidableEq

/-- `scheduler_is_alert_mode` (main.c). -/
def scheduler_is_alert_mode (snapshot : SensorSnapshot)
    (anomaly : AnomalyResult) (corr : CorrEngine) : Bool :=
  snapshot.short_circuit || decide (0 < anomaly.active_count) ||
    decide (corr.current_state ≠ SystemState.STATE_NORMAL)

/-- `scheduler_apply_sampling_rates` (main.c): select target periods from
alert / external-input state and pull still-future deadlines forward. -/
def scheduler_apply_sampling_rates (g : Sched) (snapshot : SensorSnapshot)
    (anomaly : AnomalyResult) (corr : CorrEngine)
    (external_input_active : Bool) : Sched :=
  let target_fast := if scheduler_is_alert_mode snapshot anomaly corr then 20 else 100
  let target_med := if scheduler_is_alert_mode snapshot anomaly corr then 100 else 500
  let target_slow := if scheduler_is_alert_mode snapshot anomaly corr then 1000 else 5000
  let target_slow :=
    if external_input_active && decide (1000 < target_slow) then 1000 else target_slow
  let g := { g with
    fast_loop_ms := target_fast, med_loop_ms := target_med,
    slow_loop_ms := target_slow }
  let g :=
    if u32 (g.uptime_ms + g.fast_loop_ms) < g.next_fast_ms then
      { g with next_fast_ms := u32 (g.uptime_ms + g.fast_loop_ms) }
    else g
  let g :=
    if u32 (g.uptime_ms + g.med_loop_ms) < g.next_med_ms then
      { g with next_med_ms := u32 (g.uptime_ms + g.med_loop_ms) }
    else g
  let g :=
    if u32 (g.uptime_ms + g.slow_loop_ms) < g.next_slow_ms then
      { g with next_slow_ms := u32 (g.uptime_ms + g.slow_loop_ms) }
    else g
  g

/-! ## Anomaly evaluator (anomaly_eval.c) -/

/-- Category bit `CAT_ELECTRICAL`. -/
def CAT_ELECTRICAL : Nat := 1

/-- Category bit `CAT_THERMAL`. -/
def CAT_THERMAL : Nat := 2

/-- Category bit `CAT_GAS`. -/
def CAT_GAS : Nat := 4

/-- Category bit `CAT_PRESSURE`. -/
def CAT_PRESSURE : Nat := 8

/-- Category bit `CAT_SWELLING`. -/
def CAT_SWELLING : Nat := 16

/-- `anomaly_eval_init`: the default full-pack thresholds. -/
def anomaly_eval_init : AnomalyThresholds where
  voltage_low_v := F.num 260
  voltage_high_v := F.num 380
  group_v_deviation_mv := F.num 15
  v_spread_warn_mv := F.num 50
  v_spread_crit_mv := F.num 150
  current_warning_a := F.num 180
  current_short_a := F.num 350
  r_int_warning_mohm := F.num 0.55
  temp_warning_c := F.num 55
  temp_critical_c := F.num 65
  dt_dt_warning := F.num 0.5
  inter_module_dt_warn_c := F.num 5
  inter_module_dt_crit_c := F.num 10
  intra_module_dt_warn_c := F.num 3
  intra_module_dt_crit_c := F.num 8
  delta_t_ambient_warning := F.num 20
  temp_emergency_c := F.num 80
  dt_dt_emergency := F.num 5
  current_emergency_a := F.num 500
  gas_warning_ratio := F.num 0.7
  gas_critical_ratio := F.num 0.4
  pressure_warning_hpa := F.num 2
  pressure_critical_hpa := F.num 5
  coolant_dt_min_c := F.num 2
  swelling_warning_pct := F.num 3

/-- One iteration bound of the `anomaly_count_categories` while-loop: the
mask is a uint8, so eight halvings always reach zero.  Structural recursion
on the remaining bit width keeps the definition kernel-computable. -/
def count_bits_loop : Nat → Nat → Nat
  | 0, _ => 0
  | width + 1, mask => if mask = 0 then 0 else mask % 2 + count_bits_loop width (mask / 2)

/-- `anomaly_count_categories`: population count of the uint8 mask, as the
C while-loop computes it. -/
def anomaly_count_categories (mask : Nat) : Nat :=
  count_bits_loop 8 (mask % 256)

/-- `CASCADE_THRESHOLDS` (°C, core temperature). -/
def CASCADE_THRESHOLDS : List F :=
  [F.num 60, F.num 80, F.num 120, F.num 150, F.num 200, F.num 300]

/-- `get_cascade_stage`: index of the first cascade threshold at or above the
core temperature, 6 when none (`List.findIdx` returns the length on miss,
exactly as the C loop falls through to `NUM_CASCADE_THRESHOLDS`). -/
def get_cascade_stage (core_temp_c : F) : Nat :=
  CASCADE_THRESHOLDS.findIdx (fun th => F.le core_temp_c th)

/-- Accumulator of the inner group-voltage loop in `anomaly_eval_compute`. -/
structure VScan where
  v_sum : F
  v_min : F
  v_max : F
  g_min : F
  g_max : F

/-- Accumulator of the module loop in `anomaly_eval_compute`. -/
structure ComputeAcc where
  modules : Fin 8 → ModuleData
  global_v_min : F
  global_v_max : F
  global_t_min : F
  global_t_max : F
  max_dt_dt : F
  max_temp : F
  hot_module : Nat

/-- One iteration of the module loop of `anomaly_eval_compute`: per-module
voltage statistics, `delta_t_intra`, pack-wide min/max tracking, hotspot
and `max_dt_dt` tracking. -/
def compute_module_step (acc : ComputeAcc) (m : Fin 8) : ComputeAcc :=
  let md := acc.modules m
  let inner := (List.finRange 13).foldl
    (fun (ia : VScan) g =>
      let v := md.group_voltages_v g
      { v_sum := F.add ia.v_sum v,
        v_min := if F.lt v ia.v_min then v else ia.v_min,
        v_max := if F.lt ia.v_max v then v else ia.v_max,
        g_min := if F.lt v ia.g_min then v else ia.g_min,
        g_max := if F.lt ia.g_max v then v else ia.g_max })
    { v_sum := F.num 0, v_min := F.num 999, v_max := F.num 0,
      g_min := acc.global_v_min, g_max := acc.global_v_max }
  let dt := F.sub md.ntc1_c md.ntc2_c
  let dt := if F.lt dt (F.num 0) then F.neg dt else dt
  let md' := { md with
    module_voltage := inner.v_sum,
    mean_group_v := F.div inner.v_sum (F.num 13),
    v_spread_mv := F.mul (F.sub inner.v_max inner.v_min) (F.num 1000),
    delta_t_intra := dt }
  let t_min := if F.lt md.ntc1_c acc.global_t_min then md.ntc1_c else acc.global_t_min
  let t_min := if F.lt md.ntc2_c t_min then md.ntc2_c else t_min
  let t_max := if F.lt acc.global_t_max md.ntc1_c then md.ntc1_c else acc.global_t_max
  let t_max := if F.lt t_max md.ntc2_c then md.ntc2_c else t_max
  let mod_max_t := if F.lt md.ntc2_c md.ntc1_c then md.ntc1_c else md.ntc2_c
  let hot :=
    if F.lt acc.max_temp mod_max_t then (mod_max_t, m.val + 1)
    else (acc.max_temp, acc.hot_module)
  let mdd := if F.lt acc.max_dt_dt md.max_dt_dt then md.max_dt_dt else acc.max_dt_dt
  { modules := Function.update acc.modules m md',
    global_v_min := inner.g_min, global_v_max := inner.g_max,
    global_t_min := t_min, global_t_max := t_max,
    max_dt_dt := mdd, max_temp := hot.1, hot_module := hot.2 }

/-- `anomaly_eval_compute`: fill the computed fields of the snapshot
(per-module voltage stats and `delta_t_intra`; pack-wide spreads, hotspot,
`dt_dt_max`, core-temperature estimate, coolant delta).  The thresholds
argument is unused, as in the C source. -/
def anomaly_eval_compute (s : SensorSnapshot) (_t : AnomalyThresholds) :
    SensorSnapshot :=
  let acc0 : ComputeAcc :=
    { modules := s.modules, global_v_min := F.num 999, global_v_max := F.num 0,
      global_t_min := F.num 999, global_t_max := F.num (-999),
      max_dt_dt := F.num 0, max_temp := F.num (-999), hot_module := 0 }
  let acc := (List.finRange 8).foldl compute_module_step acc0
  let i_cell := F.div s.pack_current_a (F.num 8)
  let r_int_ohm := F.div s.r_internal_mohm (F.num 1000)
  let core_delta := F.mul (F.mul (F.mul i_cell i_cell) r_int_ohm) (F.num 3)
  { s with
    modules := acc.modules,
    v_spread_mv := F.mul (F.sub acc.global_v_max acc.global_v_min) (F.num 1000),
    temp_spread_c := F.sub acc.global_t_max acc.global_t_min,
    dt_dt_max := acc.max_dt_dt,
    hotspot_module := acc.hot_module,
    hotspot_temp_c := acc.max_temp,
    t_core_est_c := F.add acc.max_temp core_delta,
    coolant_delta_t := F.sub s.coolant_outlet_c s.coolant_inlet_c }

/-- Per-module group-voltage deviation check of `anomaly_eval_run` (the C
inner loop with `break`: one deviating group flags the module). -/
def run_deviation_step (t : AnomalyThresholds) (s : SensorSnapshot)
    (a : Nat × Nat) (m : Fin 8) : Nat × Nat :=
  let md := s.modules m
  let bad := (List.finRange 13).any (fun g =>
    let dev_mv := F.mul (F.sub (md.group_voltages_v g) md.mean_group_v) (F.num 1000)
    let dev_mv := if F.lt dev_mv (F.num 0) then F.neg dev_mv else dev_mv
    F.lt t.group_v_deviation_mv dev_mv)
  if bad then (a.1 ||| CAT_ELECTRICAL, a.2 ||| (1 <<< m.val)) else a

/-- Per-module thermal checks of `anomaly_eval_run`: absolute NTC threshold,
running `max_ntc`, intra-module ΔT.  Accumulator is
(active mask, module mask, max NTC). -/
def run_thermal_step (t : AnomalyThresholds) (s : SensorSnapshot)
    (a : Nat × Nat × F) (m : Fin 8) : Nat × Nat × F :=
  let md := s.modules m
  let mask := a.1
  let mmask := a.2.1
  let max_ntc := a.2.2
  let hit_abs := F.lt t.temp_warning_c md.ntc1_c || F.lt t.temp_warning_c md.ntc2_c
  let mask := if hit_abs then mask ||| CAT_THERMAL else mask
  let mmask := if hit_abs then mmask ||| (1 <<< m.val) else mmask
  let max_ntc := if F.lt max_ntc md.ntc1_c then md.ntc1_c else max_ntc
  let max_ntc := if F.lt max_ntc md.ntc2_c then md.ntc2_c else max_ntc
  let hit_intra := F.lt t.intra_module_dt_warn_c md.delta_t_intra
  let mask := if hit_intra then mask ||| CAT_THERMAL else mask
  let mmask := if hit_intra then mmask ||| (1 <<< m.val) else mmask
  (mask, mmask, max_ntc)

/-- Per-module swelling check of `anomaly_eval_run`. -/
def run_swelling_step (t : AnomalyThresholds) (s : SensorSnapshot)
    (a : Nat × Nat) (m : Fin 8) : Nat × Nat :=
  if F.lt t.swelling_warning_pct (s.modules m).swelling_pct then
    (a.1 ||| CAT_SWELLING, a.2 ||| (1 <<< m.val))
  else a

/-- Risk-factor accumulation of `anomaly_eval_run`: conditional
contributions with the running sum clamped at 1 after each addition. -/
def run_risk_factor (t_core dt_dt : F) (worst_gas worst_pressure : F) : F :=
  let risk := F.num 0
  let risk :=
    if F.lt (F.num 60) t_core then
      let r := F.add risk (F.div (F.sub t_core (F.num 60)) (F.num 240))
      if F.lt (F.num 1) r then F.num 1 else r
    else risk
  let risk :=
    if F.lt (F.num 0.1) dt_dt then
      let r := F.add risk (F.mul dt_dt (F.num 0.05))
      if F.lt (F.num 1) r then F.num 1 else r
    else risk
  let risk :=
    if F.lt worst_gas (F.num 0.8) then
      let r := F.add risk (F.mul (F.sub (F.num 0.8) worst_gas) (F.num 0.5))
      if F.lt (F.num 1) r then F.num 1 else r
    else risk
  let risk :=
    if F.lt (F.num 1) worst_pressure then
      let r := F.add risk (F.mul worst_pressure (F.num 0.02))
      if F.lt (F.num 1) r then F.num 1 else r
    else risk
  risk

/-- `anomaly_eval_run`: evaluate all categories against the thresholds and
assemble the result, including the risk factor and cascade stage. -/
def anomaly_eval_run (t : AnomalyThresholds) (s : SensorSnapshot) :
    AnomalyResult :=
  let active_mask : Nat := 0
  let anomaly_modules_mask : Nat := 0
  let active_mask :=
    if F.lt s.pack_voltage_v t.voltage_low_v || F.lt t.voltage_high_v s.pack_voltage_v
    then active_mask ||| CAT_ELECTRICAL else active_mask
  let active_mask :=
    if F.lt t.v_spread_warn_mv s.v_spread_mv then active_mask ||| CAT_ELECTRICAL
    else active_mask
  let dev := (List.finRange 8).foldl (run_deviation_step t s)
    (active_mask, anomaly_modules_mask)
  let active_mask := dev.1
  let anomaly_modules_mask := dev.2
  let abs_current :=
    if F.lt s.pack_current_a (F.num 0) then F.neg s.pack_current_a else s.pack_current_a
  let active_mask :=
    if F.lt t.current_warning_a abs_current then active_mask ||| CAT_ELECTRICAL
    else active_mask
  let is_short_circuit := s.short_circuit || F.lt t.current_short_a abs_current
  let active_mask :=
    if is_short_circuit then active_mask ||| CAT_ELECTRICAL else active_mask
  let is_emergency_direct := F.lt t.current_emergency_a abs_current
  let active_mask :=
    if is_emergency_direct then active_mask ||| CAT_ELECTRICAL else active_mask
  let active_mask :=
    if F.lt t.r_int_warning_mohm s.r_internal_mohm then active_mask ||| CAT_ELECTRICAL
    else active_mask
  let th := (List.finRange 8).foldl (run_thermal_step t s)
    (active_mask, anomaly_modules_mask, F.num (-999))
  let active_mask := th.1
  let anomaly_modules_mask := th.2.1
  let max_ntc := th.2.2
  let active_mask :=
    if F.lt t.inter_module_dt_warn_c s.temp_spread_c then active_mask ||| CAT_THERMAL
    else active_mask
  let delta_t_ambient := F.sub max_ntc s.temp_ambient_c
  let active_mask :=
    if F.le t.delta_t_ambient_warning delta_t_ambient then active_mask ||| CAT_THERMAL
    else active_mask
  let active_mask :=
    if F.lt t.dt_dt_warning s.dt_dt_max then active_mask ||| CAT_THERMAL
    else active_mask
  let thermal_emergency :=
    F.lt t.temp_emergency_c max_ntc || F.lt t.dt_dt_emergency s.dt_dt_max
  let is_emergency_direct := if thermal_emergency then true else is_emergency_direct
  let active_mask :=
    if thermal_emergency then active_mask ||| CAT_THERMAL else active_mask
  let worst_gas := if F.lt s.gas_ratio_1 s.gas_ratio_2 then s.gas_ratio_1 else s.gas_ratio_2
  let active_mask :=
    if F.lt worst_gas t.gas_warning_ratio then active_mask ||| CAT_GAS else active_mask
  let worst_pressure :=
    if F.lt s.pressure_delta_2_hpa s.pressure_delta_1_hpa then s.pressure_delta_1_hpa
    else s.pressure_delta_2_hpa
  let active_mask :=
    if F.lt t.pressure_warning_hpa worst_pressure then active_mask ||| CAT_PRESSURE
    else active_mask
  let sw := (List.finRange 8).foldl (run_swelling_step t s)
    (active_mask, anomaly_modules_mask)
  let active_mask := sw.1
  let anomaly_modules_mask := sw.2
  { active_mask := active_mask,
    active_count := anomaly_count_categories active_mask,
    is_short_circuit := is_short_circuit,
    is_emergency_direct := is_emergency_direct,
    hotspot_module := s.hotspot_module,
    anomaly_modules_mask := anomaly_modules_mask,
    risk_factor := run_risk_factor s.t_core_est_c s.dt_dt_max worst_gas worst_pressure,
    cascade_stage := get_cascade_stage s.t_core_est_c }

/-! ## Outbound telemetry codec (packet_format.c / packet_format.h) -/

/-- `PACKET_SYNC_BYTE`. -/
def PACKET_SYNC_BYTE : Nat := 0xAA

/-- `PACKET_PACK_SIZE`. -/
def PACKET_PACK_SIZE : Nat := 38

/-- `PACKET_MODULE_SIZE`. -/
def PACKET_MODULE_SIZE : Nat := 17

/-- Byte size of the packed `telemetry_pack_frame_t` struct: the sum of its
field sizes in declaration order (packed layout, no padding). -/
def telemetry_pack_frame_sizeof : Nat :=
  1 + 1 + 1 + 4 + 2 + 2 + 2 + 2 + 2 + 2 + 1 + 1 + 1 + 2 + 2 + 2 + 1 +
    1 + 1 + 1 + 1 + 1 + 1 + 1 + 1 + 1

/-- `packet_checksum`: XOR over the leading bytes, as the C loop folds
left-to-right. -/
def packet_checksum (data : List Nat) : Nat := data.foldl Nat.xor 0

/-- `clamp_u8` followed by the C truncating cast. -/
def clamp_u8 (v : F) : Nat :=
  if F.lt (F.num 255) v then 255
  else if F.lt v (F.num 0) then 0
  else F.truncNat v

/-- `clamp_u16` followed by the C truncating cast. -/
def clamp_u16 (v : F) : Nat :=
  if F.lt (F.num 65535) v then 65535
  else if F.lt v (F.num 0) then 0
  else F.truncNat v

/-- `clamp_i16` followed by the C truncating cast. -/
def clamp_i16 (v : F) : Int :=
  if F.lt (F.num 32767) v then 32767
  else if F.lt v (F.num (-32768)) then -32768
  else F.truncInt v

/-- Little-endian bytes of a uint16 field. -/
def u16_bytes (n : Nat) : List Nat := [n % 256, n / 256 % 256]

/-- Little-endian bytes of a uint32 field. -/
def u32_bytes (n : Nat) : List Nat :=
  [n % 256, n / 256 % 256, n / 65536 % 256, n / 16777216 % 256]

/-- Little-endian bytes of an int16 field (two's complement). -/
def i16_bytes (i : Int) : List Nat := u16_bytes (i % 65536).toNat

/-- The dT/dt byte of the pack frame: clamp to [0, 2.55], scale by 100,
truncate. -/
def dt_dt_byte (v : F) : Nat :=
  let d := if F.lt (F.num 2.55) v then F.num 2.55 else v
  let d := if F.lt d (F.num 0) then F.num 0 else d
  F.truncNat (F.mul d (F.num 100))

/-- `packet_encode_pack` as the byte sequence of the packed
`telemetry_pack_frame_t` it fills: little-endian fields in declaration
order, XOR checksum over all preceding bytes as the final byte. -/
def packet_encode_pack (timestamp_ms : Nat) (sensors : SensorSnapshot)
    (anomaly : AnomalyResult) (state : SystemState) : List Nat :=
  let payload : List Nat :=
    [PACKET_SYNC_BYTE, PACKET_PACK_SIZE, 1]
    ++ u32_bytes (u32 timestamp_ms)
    ++ u16_bytes (clamp_u16 (F.mul sensors.pack_voltage_v (F.num 10)))
    ++ i16_bytes (clamp_i16 (F.mul sensors.pack_current_a (F.num 10)))
    ++ u16_bytes (clamp_u16 (F.mul sensors.r_internal_mohm (F.num 100)))
    ++ i16_bytes (clamp_i16 (F.mul sensors.hotspot_temp_c (F.num 10)))
    ++ i16_bytes (clamp_i16 (F.mul sensors.temp_ambient_c (F.num 10)))
    ++ i16_bytes (clamp_i16 (F.mul sensors.t_core_est_c (F.num 10)))
    ++ [dt_dt_byte sensors.dt_dt_max]
    ++ [clamp_u8 (F.mul sensors.gas_ratio_1 (F.num 100))]
    ++ [clamp_u8 (F.mul sensors.gas_ratio_2 (F.num 100))]
    ++ i16_bytes (clamp_i16 (F.mul sensors.pressure_delta_1_hpa (F.num 100)))
    ++ i16_bytes (clamp_i16 (F.mul sensors.pressure_delta_2_hpa (F.num 100)))
    ++ u16_bytes (clamp_u16 (F.mul sensors.v_spread_mv (F.num 10)))
    ++ [clamp_u8 (F.mul sensors.temp_spread_c (F.num 10))]
    ++ [state.toNat, anomaly.active_mask % 256, anomaly.active_count % 256,
        anomaly.anomaly_modules_mask % 256, anomaly.hotspot_module % 256,
        clamp_u8 (F.mul anomaly.risk_factor (F.num 100)),
        anomaly.cascade_stage % 256,
        if anomaly.is_emergency_direct then 1 else 0]
  payload ++ [packet_checksum payload]

/-- `packet_validate_pack` on the frame's bytes: sync byte, length field,
XOR checksum over the first 37 bytes against the final byte.  `true` means
the C function returns 0 (valid). -/
def packet_validate_pack (pkt : List Nat) : Bool :=
  if pkt.getD 0 0 ≠ PACKET_SYNC_BYTE then false
  else if pkt.getD 1 0 ≠ PACKET_PACK_SIZE then false
  else if pkt.getD 37 0 ≠ packet_checksum (pkt.take 37) then false
  else true

/-! ## Startup self-check (main.c) -/

/-- The per-module values of the probe snapshot built by
`startup_self_check`. -/
def startup_probe_module : ModuleData where
  group_voltages_v := fun _ => F.num 3.2
  ntc1_c := F.num 28
  ntc2_c := F.num 28.5
  swelling_pct := F.num 0.5
  max_dt_dt := F.num 0
  delta_t_intra := F.num 0
  module_voltage := F.num 0
  mean_group_v := F.num 0
  v_spread_mv := F.num 0

/-- The probe snapshot of `startup_self_check`: `memset` to zero, then the
listed normal-operation values. -/
def startup_probe_snapshot : SensorSnapshot where
  pack_voltage_v := F.num 332.8
  pack_current_a := F.num 60
  r_internal_mohm := F.num 0.44
  modules := fun _ => startup_probe_module
  temp_ambient_c := F.num 25
  coolant_inlet_c := F.num 25
  coolant_outlet_c := F.num 27
  gas_ratio_1 := F.num 0.98
  gas_ratio_2 := F.num 0.97
  pressure_delta_1_hpa := F.num 0.1
  pressure_delta_2_hpa := F.num 0.1
  humidity_pct := F.num 0
  isolation_mohm := F.num 0
  dt_dt_max := F.num 0
  v_spread_mv := F.num 0
  temp_spread_c := F.num 0
  t_core_est_c := F.num 0
  dr_dt_mohm_per_s := F.num 0
  coolant_delta_t := F.num 0
  hotspot_module := 0
  hotspot_group := 0
  hotspot_temp_c := F.num 0
  short_circuit := false

/-- `startup_self_check` (main.c): pack-frame size check, the four
threshold-ordering comparisons present in the source, and the probe
encode/validate round trip. -/
def startup_self_check (t : AnomalyThresholds) : Bool :=
  if PACKET_PACK_SIZE ≠ telemetry_pack_frame_sizeof then false
  else if !(F.lt t.temp_warning_c t.temp_critical_c &&
      F.lt t.gas_critical_ratio t.gas_warning_ratio &&
      F.lt t.pressure_warning_hpa t.pressure_critical_hpa &&
      F.lt t.current_warning_a t.current_short_a) then false
  else
    let probe := anomaly_eval_compute startup_probe_snapshot t
    let ar := anomaly_eval_run t probe
    let pkt := packet_encode_pack 0 probe ar SystemState.STATE_NORMAL
    if !packet_validate_pack pkt then false
    else true

/-! ## Inbound frame parser (input_packet.c) -/

/-- `INPUT_SYNC_BYTE`. -/
def INPUT_SYNC_BYTE : Nat := 0xBB

/-- `INPUT_PACK_FRAME_SIZE`. -/
def INPUT_PACK_FRAME_SIZE : Nat := 30

/-- `INPUT_MODULE_FRAME_SIZE`. -/
def INPUT_MODULE_FRAME_SIZE : Nat := 24

/-- `INPUT_RX_BUF_SIZE`. -/
def INPUT_RX_BUF_SIZE : Nat := 64

/-- `compute_checksum` (input_packet.c): XOR fold, identical to the encoder
side checksum. -/
def compute_checksum (data : List Nat) : Nat := data.foldl Nat.xor 0

/-- Receiver state `input_rx_state_t`.  `write_pos` is `buf.length`; the
stored frames are kept as raw byte lists. -/
structure InputRxState where
  buf : List Nat
  pack_received : Bool
  modules_received : Nat
  last_pack : List Nat
  last_modules : Fin 8 → List Nat

/-- `input_rx_init`: zeroed state. -/
def input_rx_init : InputRxState where
  buf := []
  pack_received := false
  modules_received := 0
  last_pack := List.replicate 30 0
  last_modules := fun _ => List.replicate 24 0

/-- `try_parse_frame`: drop bytes before a sync, validate length / type /
checksum (each failure consumes one byte past the sync and returns 0), on a
valid frame copy it to its slot, consume it and report 1 — or 2 when the
pack frame and all eight module frames have been seen this cycle. -/
def try_parse_frame (rx : InputRxState) : InputRxState × Nat :=
  if rx.buf.length < 3 then (rx, 0)
  else
    let buf := rx.buf.dropWhile (fun b => b != INPUT_SYNC_BYTE)
    let rx := { rx with buf := buf }
    if buf.length < 3 then (rx, 0)
    else
      let frame_len := buf.getD 1 0
      let frame_type := buf.getD 2 0
      if frame_type == 1 && frame_len != INPUT_PACK_FRAME_SIZE then
        ({ rx with buf := buf.drop 1 }, 0)
      else if frame_type == 2 && frame_len != INPUT_MODULE_FRAME_SIZE then
        ({ rx with buf := buf.drop 1 }, 0)
      else if frame_type != 1 && frame_type != 2 then
        ({ rx with buf := buf.drop 1 }, 0)
      else if buf.length < frame_len then (rx, 0)
      else
        let expected := compute_checksum (buf.take (frame_len - 1))
        if buf.getD (frame_len - 1) 0 != expected then
          ({ rx with buf := buf.drop 1 }, 0)
        else
          let rx :=
            if frame_type == 1 then
              { rx with last_pack := buf.take 30, pack_received := true }
            else
              let mi := buf.getD 3 0
              if h : mi < 8 then
                { rx with
                  last_modules := Function.update rx.last_modules ⟨mi, h⟩ (buf.take 24),
                  modules_received := rx.modules_received ||| (1 <<< mi) }
              else rx
          let rx := { rx with buf := rx.buf.drop frame_len }
          let result :=
            if rx.pack_received && rx.modules_received == 0xFF then 2 else 1
          (rx, result)

/-- `input_rx_feed`: append one byte (resetting the buffer on overflow) and
try to parse. -/
def input_rx_feed (rx : InputRxState) (byte : Nat) : InputRxState × Nat :=
  if rx.buf.length < INPUT_RX_BUF_SIZE then
    try_parse_frame { rx with buf := rx.buf ++ [byte] }
  else
    ({ rx with buf := [byte] }, 0)

/-- Feed a byte sequence one byte at a time; the result component is the
return value of the last `input_rx_feed` call (0 for the empty sequence). -/
def input_rx_feed_list (rx : InputRxState) (bytes : List Nat) :
    InputRxState × Nat :=
  bytes.foldl (fun acc b => input_rx_feed acc.1 b) (rx, 0)

/-- `input_rx_reset_cycle`: clear the presence tracking, keep the frames. -/
def input_rx_reset_cycle (rx : InputRxState) : InputRxState :=
  { rx with pack_received := false, modules_received := 0 }

/-! ## Concrete instances used by the claims -/

/-- The §8 normal snapshot with module 0's first NTC at the −999 °C
sentinel. -/
def sentinel_ntc_snapshot : SensorSnapshot :=
  { startup_probe_snapshot with
    modules := Function.update (fun _ => startup_probe_module) 0
      { startup_probe_module with ntc1_c := F.num (-999) } }

/-- The §8 normal snapshot with module 0's first NTC reading NaN. -/
def nan_ntc_snapshot : SensorSnapshot :=
  { startup_probe_snapshot with
    modules := Function.update (fun _ => startup_probe_module) 0
      { startup_probe_module with ntc1_c := F.nan } }

/-- A snapshot with computed fields filled so that every risk contribution
sits in the dead zone of the code's guards: core 25 °C, dT/dt 0.1,
gas ratios 0.9, pressure deltas 0.5 hPa. -/
def risk_guard_snapshot : SensorSnapshot :=
  { startup_probe_snapshot with
    t_core_est_c := F.num 25, dt_dt_max := F.num 0.1,
    gas_ratio_1 := F.num 0.9, gas_ratio_2 := F.num 0.9,
    pressure_delta_1_hpa := F.num 0.5, pressure_delta_2_hpa := F.num 0.5 }

/-- Default thresholds with `temp_emergency_c` lowered to 10 °C, violating
`temp_critical < temp_emergency`. -/
def bad_emergency_thresholds : AnomalyThresholds :=
  { anomaly_eval_init with temp_emergency_c := F.num 10 }

/-- An evaluator result with exactly two active categories (THERMAL and
GAS) and no direct-emergency flags. -/
def two_category_result : AnomalyResult where
  active_mask := 6
  active_count := 2
  is_short_circuit := false
  is_emergency_direct := false
  hotspot_module := 3
  anomaly_modules_mask := 4
  risk_factor := F.num 0
  cascade_stage := 0

/-- An evaluator result with no anomalies at all. -/
def quiet_result : AnomalyResult where
  active_mask := 0
  active_count := 0
  is_short_circuit := false
  is_emergency_direct := false
  hotspot_module := 0
  anomaly_modules_mask := 0
  risk_factor := F.num 0
  cascade_stage := 0

/-- An evaluator result with the short-circuit flag raised. -/
def short_circuit_result : AnomalyResult where
  active_mask := 1
  active_count := 1
  is_short_circuit := true
  is_emergency_direct := false
  hotspot_module := 0
  anomaly_modules_mask := 0
  risk_factor := F.num 0
  cascade_stage := 0

/-- A checksummed module frame carrying module index 8 (out of range). -/
def module9_frame : List Nat :=
  [0xBB, 24, 2, 8] ++ List.replicate 19 0 ++ [169]

/-! ## Helper lemmas -/

theorem u16_eq_of_lt {n : Nat} (h : n < 65536) : u16 n = n :=
  Nat.mod_eq_of_lt h

theorem u32_eq_of_lt {n : Nat} (h : n < 4294967296) : u32 n = n :=
  Nat.mod_eq_of_lt h

/-- Bridge between the spec's rational ceiling and the C integer formula. -/
theorem nat_ceil_cast_div (w p : Nat) (hp : 0 < p) :
    ⌈(w : ℚ) / (p : ℚ)⌉₊ = (w + p - 1) / p := by
  have hp' : (0 : ℚ) < (p : ℚ) := by exact_mod_cast hp
  have key : ∀ n : Nat, (⌈(w : ℚ) / (p : ℚ)⌉₊ ≤ n ↔ (w + p - 1) / p ≤ n) := by
    intro n
    rw [Nat.ceil_le, div_le_iff₀ hp', Nat.div_le_iff_le_mul_add_pred hp]
    have hsplit : w + p - 1 ≤ p * n + (p - 1) ↔ w ≤ p * n := by
      generalize p * n = m
      omega
    rw [hsplit, ← Nat.cast_mul, Nat.cast_le, Nat.mul_comm n p]
  exact le_antisymm ((key _).mpr le_rfl) ((key _).mp le_rfl)

/-- For the firmware's window sizes, `ms_to_cycles` computes the clamped
rational ceiling of `window / period` for every nonzero uint32 period. -/
theorem ms_to_cycles_eq_spec (w p : Nat) (hw : 0 < w) (hw2 : w ≤ 100000)
    (hp : 0 < p) (hP : p < 4294967296) :
    ms_to_cycles w p = max 1 (min 65535 ⌈(w : ℚ) / (p : ℚ)⌉₊) := by
  rw [nat_ceil_cast_div w p hp]
  unfold ms_to_cycles
  rw [if_neg hp.ne']
  by_cases hbig : w + p - 1 < 4294967296
  · rw [show u32 (w + p - 1) = w + p - 1 from Nat.mod_eq_of_lt hbig]
    generalize (w + p - 1) / p = c
    dsimp only
    split_ifs <;> omega
  · have hwrap : u32 (w + p - 1) = w + p - 1 - 4294967296 := by
      unfold u32
      omega
    have hlt : w + p - 1 - 4294967296 < p := by omega
    have hdiv0 : u32 (w + p - 1) / p = 0 := by
      rw [hwrap]
      exact Nat.div_eq_of_lt hlt
    have hone : (w + p - 1) / p = 1 :=
      Nat.div_eq_of_lt_le (by omega) (by omega)
    rw [hdiv0, hone]
    simp

/-! ## C4 — timing-limit recomputation -/

/-- C4: whenever the medium period changes, `correlation_sync_timing_limits`
recomputes both cycle limits as `ceil(window_ms / P)` clamped to 1..65535
(window 10000 ms for the CRITICAL hold, 5000 ms for de-escalation), and for
P ∈ {100, 500} the CRITICAL-hold window in real time is within one P of
10000 ms. -/
theorem correlation_sync_limits_are_clamped_ceilings
    (corr : CorrEngine) (P : Nat) (hp : 0 < P) (hP : P < 4294967296) :
    (correlation_sync_timing_limits corr P).critical_countdown_limit =
      max 1 (min 65535 ⌈((10000 : Nat) : ℚ) / (P : ℚ)⌉₊) ∧
    (correlation_sync_timing_limits corr P).deescalation_limit =
      max 1 (min 65535 ⌈((5000 : Nat) : ℚ) / (P : ℚ)⌉₊) ∧
    (P = 100 ∨ P = 500 →
      (correlation_sync_timing_limits corr P).critical_countdown_limit * P ≤
        10000 + P ∧
      10000 ≤ (correlation_sync_timing_limits corr P).critical_countdown_limit * P
        + P) := by
  refine ⟨?_, ?_, ?_⟩
  · show ms_to_cycles CRITICAL_HOLD_MS P = _
    exact ms_to_cycles_eq_spec 10000 P (by norm_num) (by norm_num) hp hP
  · show ms_to_cycles DEESCALATION_HOLD_MS P = _
    exact ms_to_cycles_eq_spec 5000 P (by norm_num) (by norm_num) hp hP
  · rintro (h | h) <;> subst h
    · exact ⟨by change ms_to_cycles CRITICAL_HOLD_MS 100 * 100 ≤ 10000 + 100; decide,
             by change 10000 ≤ ms_to_cycles CRITICAL_HOLD_MS 100 * 100 + 100; decide⟩
    · exact ⟨by change ms_to_cycles CRITICAL_HOLD_MS 500 * 500 ≤ 10000 + 500; decide,
             by change 10000 ≤ ms_to_cycles CRITICAL_HOLD_MS 500 * 500 + 500; decide⟩

/-- Witness for C4 at the concrete medium periods 100 ms and 500 ms. -/
theorem correlation_sync_limits_witness :
    (correlation_sync_timing_limits correlation_engine_init 100).critical_countdown_limit
        * 100 ≤ 10000 + 100 ∧
    10000 ≤ (correlation_sync_timing_limits correlation_engine_init 100).critical_countdown_limit
        * 100 + 100 :=
  (correlation_sync_limits_are_clamped_ceilings correlation_engine_init 100
    (by norm_num) (by norm_num)).2.2 (Or.inl rfl)

/-! ## C8 — deadline preservation across rate changes -/

/-- C8: `scheduler_apply_sampling_rates` sets every slot's next deadline to
`min(current_next, now + new_period)` — it pulls the deadline forward to
`now + new_period` exactly when the current deadline lies beyond it and
leaves it unchanged otherwise, so it never shortens a still-future deadline
below `now + new_period`. -/
theorem scheduler_apply_deadlines_min (g : Sched) (snapshot : SensorSnapshot)
    (anomaly : AnomalyResult) (corr : CorrEngine) (ext : Bool) :
    (scheduler_apply_sampling_rates g snapshot anomaly corr ext).next_fast_ms =
      min g.next_fast_ms (u32 (g.uptime_ms +
        (scheduler_apply_sampling_rates g snapshot anomaly corr ext).fast_loop_ms)) ∧
    (scheduler_apply_sampling_rates g snapshot anomaly corr ext).next_med_ms =
      min g.next_med_ms (u32 (g.uptime_ms +
        (scheduler_apply_sampling_rates g snapshot anomaly corr ext).med_loop_ms)) ∧
    (scheduler_apply_sampling_rates g snapshot anomaly corr ext).next_slow_ms =
      min g.next_slow_ms (u32 (g.uptime_ms +
        (scheduler_apply_sampling_rates g snapshot anomaly corr ext).slow_loop_ms)) := by
  unfold scheduler_apply_sampling_rates
  dsimp only
  split_ifs <;> refine ⟨?_, ?_, ?_⟩ <;> simp_all <;> omega

/-! ## Correlation engine lemmas -/

/-- Characterization of `correlation_engine_update` on a non-latched engine
fed a two-category result without direct-emergency flags. -/
theorem update_two_cat (e : CorrEngine) (r : AnomalyResult)
    (hl : e.emergency_latched = false) (hsc : r.is_short_circuit = false)
    (hed : r.is_emergency_direct = false) (hc : r.active_count = 2) :
    (correlation_engine_update e r).1.current_state =
      (if e.critical_countdown_limit ≤
          u16 ((if e.current_state = SystemState.STATE_CRITICAL then
            e.critical_countdown else 0) + 1)
        then SystemState.STATE_EMERGENCY else SystemState.STATE_CRITICAL) ∧
    (correlation_engine_update e r).1.critical_countdown =
      u16 ((if e.current_state = SystemState.STATE_CRITICAL then
        e.critical_countdown else 0) + 1) ∧
    (correlation_engine_update e r).1.critical_countdown_limit =
      e.critical_countdown_limit ∧
    (correlation_engine_update e r).1.deescalation_counter = 0 ∧
    (correlation_engine_update e r).1.emergency_latched =
      decide (e.critical_countdown_limit ≤
        u16 ((if e.current_state = SystemState.STATE_CRITICAL then
          e.critical_countdown else 0) + 1)) ∧
    (correlation_engine_update e r).2 =
      (if e.critical_countdown_limit ≤
          u16 ((if e.current_state = SystemState.STATE_CRITICAL then
            e.critical_countdown else 0) + 1)
        then SystemState.STATE_EMERGENCY else SystemState.STATE_CRITICAL) := by
  by_cases hst : e.current_state = SystemState.STATE_CRITICAL
  · by_cases hcd : e.critical_countdown_limit ≤ u16 (e.critical_countdown + 1) <;>
      simp [correlation_engine_update, hc, hst, hl, hsc, hed, hcd]
  · by_cases hcd : e.critical_countdown_limit ≤ u16 1 <;>
      simp [correlation_engine_update, hc, hst, hl, hsc, hed, hcd]

/-- Iterated engine updates with a fixed evaluator result. -/
def engine_iterate (e : CorrEngine) (r : AnomalyResult) : Nat → CorrEngine
  | 0 => e
  | n + 1 => (correlation_engine_update (engine_iterate e r n) r).1

/-- Invariant of repeated two-category updates from NORMAL: after k updates
(0 < k < limit) the engine sits in CRITICAL with countdown k, unlatched,
limit unchanged, and each such update returned CRITICAL. -/
theorem iterate_two_cat_inv (e : CorrEngine) (r : AnomalyResult)
    (hl : e.emergency_latched = false) (hsc : r.is_short_circuit = false)
    (hed : r.is_emergency_direct = false) (hc : r.active_count = 2)
    (hst : e.current_state = SystemState.STATE_NORMAL)
    (hL : e.critical_countdown_limit ≤ 65535) :
    ∀ k, 1 ≤ k → k < e.critical_countdown_limit →
      (engine_iterate e r k).current_state = SystemState.STATE_CRITICAL ∧
      (engine_iterate e r k).critical_countdown = k ∧
      (engine_iterate e r k).emergency_latched = false ∧
      (engine_iterate e r k).critical_countdown_limit = e.critical_countdown_limit ∧
      (correlation_engine_update (engine_iterate e r (k - 1)) r).2 =
        SystemState.STATE_CRITICAL := by
  intro k
  induction k with
  | zero => omega
  | succ n ih =>
    intro _ hlt
    rcases Nat.eq_zero_or_pos n with hn | hn
    · subst hn
      have h := update_two_cat e r hl hsc hed hc
      rw [hst] at h
      have hne : (SystemState.STATE_NORMAL = SystemState.STATE_CRITICAL) ↔ False := by
        simp
      simp only [hne, if_false] at h
      rw [show u16 (0 + 1) = 1 from rfl] at h
      have hcond : ¬ (e.critical_countdown_limit ≤ 1) := by omega
      refine ⟨?_, ?_, ?_, ?_, ?_⟩ <;> try simp only [engine_iterate]
      · rw [h.1, if_neg hcond]
      · exact h.2.1
      · rw [h.2.2.2.2.1]
        simp [hcond]
      · exact h.2.2.1
      · rw [h.2.2.2.2.2, if_neg hcond]
    · have hn1 : n < e.critical_countdown_limit := by omega
      obtain ⟨ih1, ih2, ih3, ih4, _⟩ := ih hn hn1
      have h := update_two_cat (engine_iterate e r n) r ih3 hsc hed hc
      rw [ih1, ih2, ih4] at h
      simp only [eq_self_iff_true, if_true] at h
      rw [u16_eq_of_lt (show n + 1 < 65536 by omega)] at h
      have hcond : ¬ (e.critical_countdown_limit ≤ n + 1) := by omega
      refine ⟨?_, ?_, ?_, ?_, ?_⟩ <;> try simp only [engine_iterate]
      · rw [h.1, if_neg hcond]
      · exact h.2.1
      · rw [h.2.2.2.2.1]
        simp [hcond]
      · rw [h.2.2.1]
      · have hidx : n + 1 - 1 = n := by omega
        rw [show engine_iterate e r (n + 1 - 1) = engine_iterate e r n from by rw [hidx]]
        rw [h.2.2.2.2.2, if_neg hcond]

/-! ## C1 — two-category CRITICAL escalation -/

/-- C1 counterexample: on a fresh engine (NORMAL, limit 20) a two-category
update leaves the countdown at 1, not 0 — the code zeroes the countdown on
entry and then increments it unconditionally; consequently with
`critical_countdown_limit = 1` the very first two-category update from
NORMAL returns EMERGENCY latched instead of entering CRITICAL. -/
theorem c1_countdown_counterexample :
    (correlation_engine_update correlation_engine_init
        two_category_result).1.critical_countdown ≠ 0 ∧
    (correlation_engine_update { correlation_engine_init with
        critical_countdown_limit := 1 } two_category_result).2 =
      SystemState.STATE_EMERGENCY ∧
    (correlation_engine_update { correlation_engine_init with
        critical_countdown_limit := 1 } two_category_result).1.emergency_latched =
      true := by
  refine ⟨?_, ?_, ?_⟩ <;> decide

/-- C1 (amended): for a non-latched engine and a two-category result with
no short-circuit or direct-emergency flag, the update restarts the
countdown at zero when the engine was not already CRITICAL and then
increments it (so it equals `(old countdown or 0) + 1` mod 2^16), resets the
de-escalation counter, and returns EMERGENCY with the latch set exactly when
the countdown has reached `critical_countdown_limit`, otherwise CRITICAL;
feeding such a result repeatedly from NORMAL yields CRITICAL with
countdown k after k < limit updates (so CRITICAL on the first update when
the limit exceeds 1) and EMERGENCY, latched, at the limit-th update. -/
theorem c1_two_category_escalation (e : CorrEngine) (r : AnomalyResult)
    (hl : e.emergency_latched = false) (hsc : r.is_short_circuit = false)
    (hed : r.is_emergency_direct = false) (hc : r.active_count = 2) :
    ((correlation_engine_update e r).1.critical_countdown =
        u16 ((if e.current_state = SystemState.STATE_CRITICAL then
          e.critical_countdown else 0) + 1) ∧
      (correlation_engine_update e r).1.deescalation_counter = 0 ∧
      (e.critical_countdown_limit ≤ (correlation_engine_update e r).1.critical_countdown →
        (correlation_engine_update e r).2 = SystemState.STATE_EMERGENCY ∧
        (correlation_engine_update e r).1.emergency_latched = true ∧
        (correlation_engine_update e r).1.current_state = SystemState.STATE_EMERGENCY) ∧
      ((correlation_engine_update e r).1.critical_countdown < e.critical_countdown_limit →
        (correlation_engine_update e r).2 = SystemState.STATE_CRITICAL ∧
        (correlation_engine_update e r).1.emergency_latched = false ∧
        (correlation_engine_update e r).1.current_state = SystemState.STATE_CRITICAL)) ∧
    (e.current_state = SystemState.STATE_NORMAL →
      1 ≤ e.critical_countdown_limit → e.critical_countdown_limit ≤ 65535 →
      (∀ k, 1 ≤ k → k < e.critical_countdown_limit →
        (engine_iterate e r k).current_state = SystemState.STATE_CRITICAL ∧
        (engine_iterate e r k).critical_countdown = k ∧
        (engine_iterate e r k).emergency_latched = false ∧
        (correlation_engine_update (engine_iterate e r (k - 1)) r).2 =
          SystemState.STATE_CRITICAL) ∧
      (correlation_engine_update
          (engine_iterate e r (e.critical_countdown_limit - 1)) r).2 =
        SystemState.STATE_EMERGENCY ∧
      (engine_iterate e r e.critical_countdown_limit).emergency_latched = true ∧
      (engine_iterate e r e.critical_countdown_limit).current_state =
        SystemState.STATE_EMERGENCY) := by
  have h := update_two_cat e r hl hsc hed hc
  constructor
  · refine ⟨h.2.1, h.2.2.2.1, ?_, ?_⟩
    · intro hle
      rw [h.2.1] at hle
      refine ⟨?_, ?_, ?_⟩
      · rw [h.2.2.2.2.2, if_pos hle]
      · rw [h.2.2.2.2.1]
        simp [hle]
      · rw [h.1, if_pos hle]
    · intro hlt
      rw [h.2.1] at hlt
      have hnle := not_le.mpr hlt
      refine ⟨?_, ?_, ?_⟩
      · rw [h.2.2.2.2.2, if_neg hnle]
      · rw [h.2.2.2.2.1]
        simp [hnle]
      · rw [h.1, if_neg hnle]
  · intro hst hL1 hL2
    have hinv := iterate_two_cat_inv e r hl hsc hed hc hst hL2
    refine ⟨fun k hk1 hk2 => ?_, ?_⟩
    · obtain ⟨a, b, c, _, d⟩ := hinv k hk1 hk2
      exact ⟨a, b, c, d⟩
    · rcases Nat.lt_or_ge 1 e.critical_countdown_limit with hL | hL
      · obtain ⟨i1, i2, i3, i4, _⟩ :=
          hinv (e.critical_countdown_limit - 1) (by omega) (by omega)
        have h2 := update_two_cat (engine_iterate e r
          (e.critical_countdown_limit - 1)) r i3 hsc hed hc
        rw [i1, i2, i4] at h2
        simp only [eq_self_iff_true, if_true] at h2
        rw [show e.critical_countdown_limit - 1 + 1 = e.critical_countdown_limit
          from by omega] at h2
        rw [u16_eq_of_lt (show e.critical_countdown_limit < 65536 by omega)] at h2
        have hle : e.critical_countdown_limit ≤ e.critical_countdown_limit := le_rfl
        have hiter : engine_iterate e r e.critical_countdown_limit =
            (correlation_engine_update (engine_iterate e r
              (e.critical_countdown_limit - 1)) r).1 := by
          rw [show e.critical_countdown_limit =
            (e.critical_countdown_limit - 1) + 1 from by omega]
          rw [show (e.critical_countdown_limit - 1) + 1 - 1 =
            e.critical_countdown_limit - 1 from by omega]
          rfl
      
        refine ⟨?_, ?_, ?_⟩
        · rw [h2.2.2.2.2.2, if_pos hle]
        · rw [hiter, h2.2.2.2.2.1]
          simp
        · rw [hiter, h2.1, if_pos hle]
      · have hL1' : e.critical_countdown_limit = 1 := by omega
        have h1 := update_two_cat e r hl hsc hed hc
        rw [hst] at h1
        have hne : (SystemState.STATE_NORMAL = SystemState.STATE_CRITICAL) ↔ False := by
          simp
        simp only [hne, if_false] at h1
        rw [show u16 (0 + 1) = 1 from rfl] at h1
        rw [hL1'] at h1 ⊢
        have hle : (1 : Nat) ≤ 1 := le_rfl
        refine ⟨?_, ?_, ?_⟩
        · show (correlation_engine_update (engine_iterate e r 0) r).2 = _
          show (correlation_engine_update e r).2 = _
          rw [h1.2.2.2.2.2, if_pos hle]
        · show (correlation_engine_update (engine_iterate e r 0) r).1.emergency_latched = _
          show (correlation_engine_update e r).1.emergency_latched = _
          rw [h1.2.2.2.2.1]
          simp
        · show (correlation_engine_update (engine_iterate e r 0) r).1.current_state = _
          show (correlation_engine_update e r).1.current_state = _
          rw [h1.1, if_pos hle]

/-- Witness for C1 on a fresh engine (limit 20) fed the two-category
result: CRITICAL after the first update, EMERGENCY latched after 20. -/
theorem c1_two_category_escalation_witness :
    (engine_iterate correlation_engine_init two_category_result 1).current_state =
      SystemState.STATE_CRITICAL ∧
    (engine_iterate correlation_engine_init two_category_result 20).emergency_latched =
      true ∧
    (engine_iterate correlation_engine_init two_category_result 20).current_state =
      SystemState.STATE_EMERGENCY := by
  have h := (c1_two_category_escalation correlation_engine_init two_category_result
    rfl rfl rfl rfl).2 rfl (by decide) (by decide)
  exact ⟨(h.1 1 (by decide) (by decide)).1, h.2.2.1, h.2.2.2⟩

/-! ## C2 — latched-emergency recovery -/

/-- A latched engine sitting in EMERGENCY, as produced by any latching
transition. -/
def latched_engine : CorrEngine :=
  { correlation_engine_init with
    current_state := SystemState.STATE_EMERGENCY, emergency_latched := true }

/-- C2: with the latch set, any anomaly (positive category count,
short-circuit, or direct emergency) zeroes the recovery counter and the
update returns EMERGENCY with the latch held; otherwise the counter
increments, and exactly when it reaches `emergency_recovery_limit` the
latch clears, the critical countdown and de-escalation counters reset and
the state becomes NORMAL — until then the update keeps returning EMERGENCY
with the latch held. -/
theorem c2_latched_recovery (e : CorrEngine) (r : AnomalyResult)
    (hl : e.emergency_latched = true) :
    ((0 < r.active_count ∨ r.is_short_circuit = true ∨ r.is_emergency_direct = true) →
      (correlation_engine_update e r).1.emergency_recovery_counter = 0 ∧
      (correlation_engine_update e r).1.emergency_latched = true ∧
      (correlation_engine_update e r).2 = SystemState.STATE_EMERGENCY) ∧
    (r.active_count = 0 → r.is_short_circuit = false → r.is_emergency_direct = false →
      (correlation_engine_update e r).1.emergency_recovery_counter =
        (if e.emergency_recovery_limit ≤ u16 (e.emergency_recovery_counter + 1)
          then 0 else u16 (e.emergency_recovery_counter + 1)) ∧
      (e.emergency_recovery_limit ≤ u16 (e.emergency_recovery_counter + 1) →
        (correlation_engine_update e r).1.emergency_latched = false ∧
        (correlation_engine_update e r).1.critical_countdown = 0 ∧
        (correlation_engine_update e r).1.deescalation_counter = 0 ∧
        (correlation_engine_update e r).1.current_state = SystemState.STATE_NORMAL ∧
        (correlation_engine_update e r).2 = SystemState.STATE_NORMAL) ∧
      (u16 (e.emergency_recovery_counter + 1) < e.emergency_recovery_limit →
        (correlation_engine_update e r).1.emergency_latched = true ∧
        (correlation_engine_update e r).2 = SystemState.STATE_EMERGENCY)) := by
  constructor
  · intro hany
    have hcond : (r.is_short_circuit || r.is_emergency_direct ||
        decide (0 < r.active_count)) = true := by
      rcases hany with h | h | h <;> simp [h]
    simp [correlation_engine_update, hl, hcond]
  · intro hc hsc hed
    have hcond : (r.is_short_circuit || r.is_emergency_direct ||
        decide (0 < r.active_count)) = false := by
      simp [hc, hsc, hed]
    refine ⟨?_, ?_, ?_⟩
    · by_cases hrel : e.emergency_recovery_limit ≤ u16 (e.emergency_recovery_counter + 1) <;>
        simp [correlation_engine_update, hl, hcond, hrel]
    · intro hrel
      simp [correlation_engine_update, hl, hcond, hrel]
    · intro hrel
      have hnle := not_le.mpr hrel
      simp [correlation_engine_update, hl, hcond, hnle]

/-- Witness for C2: a latched engine fed a short-circuit result stays in
EMERGENCY with the counter reset; fed a quiet result (counter 1 < limit 10)
it still returns EMERGENCY. -/
theorem c2_latched_recovery_witness :
    (correlation_engine_update latched_engine short_circuit_result).1.emergency_recovery_counter = 0 ∧
    (correlation_engine_update latched_engine short_circuit_result).2 =
      SystemState.STATE_EMERGENCY ∧
    (correlation_engine_update latched_engine quiet_result).2 =
      SystemState.STATE_EMERGENCY := by
  have h1 := (c2_latched_recovery latched_engine short_circuit_result rfl).1
    (Or.inr (Or.inl rfl))
  have h2 := ((c2_latched_recovery latched_engine quiet_result rfl).2
    rfl rfl rfl).2.2 (by decide)
  exact ⟨h1.1, h1.2.2, h2.2⟩

/-! ## C3 — short circuit forces latched EMERGENCY -/

/-- Engine states reachable from construction through updates and resets. -/
inductive EngineReachable : CorrEngine → Prop where
  | init : EngineReachable correlation_engine_init
  | step (e : CorrEngine) (r : AnomalyResult) (h : EngineReachable e) :
      EngineReachable (correlation_engine_update e r).1
  | reset (e : CorrEngine) (h : EngineReachable e) :
      EngineReachable (correlation_engine_reset e)

set_option maxHeartbeats 3200000 in
/-- In every reachable engine state the latch implies the EMERGENCY state:
every transition that sets the latch also sets the state, and while latched
the state is only changed by the release transition, which clears both. -/
theorem reachable_latched_emergency (e : CorrEngine) (h : EngineReachable e) :
    e.emergency_latched = true → e.current_state = SystemState.STATE_EMERGENCY := by
  induction h with
  | init => intro hx; simp [correlation_engine_init] at hx
  | reset e _ _ => intro hx; simp [correlation_engine_reset, correlation_engine_init] at hx
  | step e r _ ih =>
    intro hlat
    by_cases hl : e.emergency_latched = true
    · have hstate := ih hl
      clear ih
      simp only [correlation_engine_update, hl] at hlat ⊢
      split_ifs at hlat ⊢ <;> simp_all
    · have hl' : e.emergency_latched = false := by simpa using hl
      clear ih
      simp only [correlation_engine_update, hl'] at hlat ⊢
      split_ifs at hlat ⊢ <;> simp_all

/-- C3: from any reachable engine state, an update whose result carries
`is_short_circuit` leaves the engine latched in EMERGENCY and returns
EMERGENCY. -/
theorem short_circuit_forces_emergency (e : CorrEngine) (r : AnomalyResult)
    (hr : EngineReachable e) (hsc : r.is_short_circuit = true) :
    (correlation_engine_update e r).1.current_state = SystemState.STATE_EMERGENCY ∧
    (correlation_engine_update e r).1.emergency_latched = true ∧
    (correlation_engine_update e r).2 = SystemState.STATE_EMERGENCY := by
  by_cases hl : e.emergency_latched = true
  · have hstate := reachable_latched_emergency e hr hl
    have hcond : (r.is_short_circuit || r.is_emergency_direct ||
        decide (0 < r.active_count)) = true := by simp [hsc]
    simp [correlation_engine_update, hl, hcond, hstate]
  · have hl' : e.emergency_latched = false := by simpa using hl
    simp [correlation_engine_update, hl', hsc]

/-- Witness for C3 on the freshly constructed engine. -/
theorem short_circuit_forces_emergency_witness :
    (correlation_engine_update correlation_engine_init
      short_circuit_result).1.current_state = SystemState.STATE_EMERGENCY ∧
    (correlation_engine_update correlation_engine_init
      short_circuit_result).1.emergency_latched = true ∧
    (correlation_engine_update correlation_engine_init
      short_circuit_result).2 = SystemState.STATE_EMERGENCY :=
  short_circuit_forces_emergency correlation_engine_init short_circuit_result
    EngineReachable.init rfl

/-! ## C5 — NTC sentinel vs NaN -/

section RatKernelComputationA

attribute [local semireducible] Rat.mul Rat.add Rat.sub Rat.inv Rat.ofScientific

set_option maxRecDepth 100000 in
/-- C5 counterexample: on the §8 normal snapshot, putting the −999 °C
sentinel on one NTC yields active mask 2 (THERMAL, via the pack
temperature-spread and intra-module ΔT checks), while a NaN on the same
channel yields mask 0 — so the sentinel does not produce the same mask as
NaN, and its mask does contain THERMAL. -/
theorem sentinel_ntc_counterexample :
    (anomaly_eval_run anomaly_eval_init
        (anomaly_eval_compute sentinel_ntc_snapshot anomaly_eval_init)).active_mask ≠
      (anomaly_eval_run anomaly_eval_init
        (anomaly_eval_compute nan_ntc_snapshot anomaly_eval_init)).active_mask ∧
    (anomaly_eval_run anomaly_eval_init
        (anomaly_eval_compute sentinel_ntc_snapshot anomaly_eval_init)).active_mask
      &&& CAT_THERMAL = CAT_THERMAL := by
  refine ⟨?_, ?_⟩ <;> decide

set_option maxRecDepth 100000 in
/-- C5 (amended): on the §8 normal snapshot a NaN NTC reading produces the
same active mask as the fully nominal snapshot — the empty mask, hence no
THERMAL — while the −999 °C sentinel instead raises THERMAL (mask 2)
through the temperature-spread and intra-module ΔT checks, so the sentinel
and NaN masks differ. -/
theorem sentinel_ntc_amended :
    (anomaly_eval_run anomaly_eval_init
        (anomaly_eval_compute nan_ntc_snapshot anomaly_eval_init)).active_mask =
      (anomaly_eval_run anomaly_eval_init
        (anomaly_eval_compute startup_probe_snapshot anomaly_eval_init)).active_mask ∧
    (anomaly_eval_run anomaly_eval_init
        (anomaly_eval_compute nan_ntc_snapshot anomaly_eval_init)).active_mask = 0 ∧
    (anomaly_eval_run anomaly_eval_init
        (anomaly_eval_compute sentinel_ntc_snapshot anomaly_eval_init)).active_mask =
      CAT_THERMAL := by
  refine ⟨?_, ?_, ?_⟩ <;> decide

end RatKernelComputationA

/-! ## C6 — risk factor formula -/

/-- The risk factor exactly as claim C6 words it: the clamp to [0, 1] of
the sum of four contributions — `max(0, (t_core − 60)/240)`,
`dt_dt_max × 0.05`, `max(0, 0.8 − worst_gas) × 0.5` and
`max(0, worst_pressure) × 0.02` — each contribution clamped individually
before the summed value is clamped. -/
def risk_factor_claimed (t_core dt_dt worst_gas worst_pressure : ℚ) : ℚ :=
  max 0 (min 1
    (min 1 (max 0 ((t_core - 60) / 240)) +
     min 1 (dt_dt * 0.05) +
     min 1 (max 0 (0.8 - worst_gas) * 0.5) +
     min 1 (max 0 worst_pressure * 0.02)))

section RatKernelComputationB

attribute [local semireducible] Rat.mul Rat.add Rat.sub Rat.inv Rat.ofScientific

set_option maxRecDepth 100000 in
/-- C6 counterexample: for a snapshot whose computed fields are
core 25 °C, dT/dt 0.1, gas ratios 0.9 and pressure deltas 0.5 hPa, the code
returns risk 0 (dT/dt ≤ 0.1 and pressure ≤ 1.0 fall inside the guards and
contribute nothing), while the claimed formula gives
0.1 × 0.05 + 0.5 × 0.02 = 0.015. -/
theorem risk_factor_counterexample :
    (anomaly_eval_run anomaly_eval_init risk_guard_snapshot).risk_factor =
      F.num 0 ∧
    risk_factor_claimed 25 0.1 0.9 0.5 = 0.015 ∧
    (anomaly_eval_run anomaly_eval_init risk_guard_snapshot).risk_factor ≠
      F.num (risk_factor_claimed 25 0.1 0.9 0.5) := by
  refine ⟨?_, ?_, ?_⟩ <;> decide

end RatKernelComputationB

/-- The risk factor as the code computes it, in spec terms: starting from
zero, add `(t_core − 60)/240` only when `t_core > 60`, add
`dt_dt × 0.05` only when `dt_dt > 0.1`, add `(0.8 − worst_gas) × 0.5` only
when `worst_gas < 0.8`, and add `worst_pressure × 0.02` only when
`worst_pressure > 1.0`, clamping the running sum at 1 after each
addition. -/
def risk_factor_amended (t_core dt_dt worst_gas worst_pressure : ℚ) : ℚ :=
  let r1 := if 60 < t_core then min 1 ((t_core - 60) / 240) else 0
  let r2 := if 0.1 < dt_dt then min 1 (r1 + dt_dt * 0.05) else r1
  let r3 := if worst_gas < 0.8 then min 1 (r2 + (0.8 - worst_gas) * 0.5) else r2
  if 1 < worst_pressure then min 1 (r3 + worst_pressure * 0.02) else r3

/-- `run_risk_factor` on rational inputs agrees with the amended formula. -/
theorem run_risk_factor_eq_amended (tc dt wg wp : ℚ) :
    run_risk_factor (F.num tc) (F.num dt) (F.num wg) (F.num wp) =
      F.num (risk_factor_amended tc dt wg wp) := by
  have h240 : ((240 : ℚ) = 0) = False := by norm_num
  have hmin : ∀ x : ℚ, (if 1 < x then (1 : ℚ) else x) = min 1 x := by
    intro x
    rw [min_def]
    split_ifs <;> first | rfl | linarith
  unfold run_risk_factor risk_factor_amended
  simp only [F.lt, F.add, F.sub, F.mul, F.div, decide_eq_true_eq, zero_add,
    h240, if_false, ← apply_ite F.num, F.num.injEq, hmin]

/-- Projection of the risk factor out of `anomaly_eval_run`. -/
theorem anomaly_eval_run_risk_factor (t : AnomalyThresholds) (s : SensorSnapshot) :
    (anomaly_eval_run t s).risk_factor =
      run_risk_factor s.t_core_est_c s.dt_dt_max
        (if F.lt s.gas_ratio_1 s.gas_ratio_2 then s.gas_ratio_1 else s.gas_ratio_2)
        (if F.lt s.pressure_delta_2_hpa s.pressure_delta_1_hpa then
          s.pressure_delta_1_hpa else s.pressure_delta_2_hpa) :=
  rfl

/-- C6 (amended): for every thresholds record and snapshot with numeric
(non-NaN) computed fields, the risk factor returned by `anomaly_eval_run`
equals the amended formula: conditional contributions guarded by
`t_core > 60`, `dt_dt > 0.1`, `worst_gas < 0.8` and `worst_pressure > 1.0`,
with the running sum clamped at 1 after each addition, where `worst_gas` is
the smaller gas ratio and `worst_pressure` the larger pressure delta. -/
theorem risk_factor_amended_correct (t : AnomalyThresholds) (s : SensorSnapshot)
    (tc dt g1 g2 p1 p2 : ℚ)
    (h1 : s.t_core_est_c = F.num tc) (h2 : s.dt_dt_max = F.num dt)
    (h3 : s.gas_ratio_1 = F.num g1) (h4 : s.gas_ratio_2 = F.num g2)
    (h5 : s.pressure_delta_1_hpa = F.num p1)
    (h6 : s.pressure_delta_2_hpa = F.num p2) :
    (anomaly_eval_run t s).risk_factor =
      F.num (risk_factor_amended tc dt (min g1 g2) (max p1 p2)) := by
  rw [anomaly_eval_run_risk_factor, h1, h2, h3, h4, h5, h6]
  have hg : (if F.lt (F.num g1) (F.num g2) then F.num g1 else F.num g2) =
      F.num (min g1 g2) := by
    by_cases h : g1 < g2
    · simp [F.lt, h, min_eq_left h.le]
    · simp [F.lt, h, min_eq_right (not_lt.mp h)]
  have hp : (if F.lt (F.num p2) (F.num p1) then F.num p1 else F.num p2) =
      F.num (max p1 p2) := by
    by_cases h : p2 < p1
    · simp [F.lt, h, max_eq_left h.le]
    · simp [F.lt, h, max_eq_right (not_lt.mp h)]
  rw [hg, hp, run_risk_factor_eq_amended]

/-- Witness for the amended C6 on the guard-zone snapshot. -/
theorem risk_factor_amended_witness :
    (anomaly_eval_run anomaly_eval_init risk_guard_snapshot).risk_factor =
      F.num (risk_factor_amended 25 0.1 (min 0.9 0.9) (max 0.5 0.5)) :=
  risk_factor_amended_correct anomaly_eval_init risk_guard_snapshot
    25 0.1 0.9 0.9 0.5 0.5 rfl rfl rfl rfl rfl rfl

/-! ## C7 — startup self-check ordering rules -/

section RatKernelComputationC

attribute [local semireducible] Rat.mul Rat.add Rat.sub Rat.inv Rat.ofScientific

set_option maxRecDepth 200000 in
/-- C7 counterexample: thresholds with `temp_emergency_c = 10 °C` violate
`temp_critical < temp_emergency`, yet `startup_self_check` passes — the
source compares neither `temp_critical_c` against `temp_emergency_c` nor
`current_short_a` against `current_emergency_a`. -/
theorem startup_self_check_counterexample :
    startup_self_check bad_emergency_thresholds = true ∧
    F.lt bad_emergency_thresholds.temp_critical_c
      bad_emergency_thresholds.temp_emergency_c = false := by
  refine ⟨?_, ?_⟩ <;> decide

end RatKernelComputationC

/-- C7 (amended): the startup self-check fails for every thresholds record
violating one of the four orderings it actually checks —
`temp_warning < temp_critical`, `gas_warning > gas_critical`,
`pressure_warning < pressure_critical`, `current_warning < current_short`;
the orderings `temp_critical < temp_emergency` and
`current_short < current_emergency` are not checked. -/
theorem startup_self_check_checked_orderings (t : AnomalyThresholds)
    (h : F.lt t.temp_warning_c t.temp_critical_c = false ∨
         F.lt t.gas_critical_ratio t.gas_warning_ratio = false ∨
         F.lt t.pressure_warning_hpa t.pressure_critical_hpa = false ∨
         F.lt t.current_warning_a t.current_short_a = false) :
    startup_self_check t = false := by
  unfold startup_self_check
  rw [if_neg (by decide : ¬(PACKET_PACK_SIZE ≠ telemetry_pack_frame_sizeof))]
  have hcond : (F.lt t.temp_warning_c t.temp_critical_c &&
      F.lt t.gas_critical_ratio t.gas_warning_ratio &&
      F.lt t.pressure_warning_hpa t.pressure_critical_hpa &&
      F.lt t.current_warning_a t.current_short_a) = false := by
    rcases h with h | h | h | h <;> simp [h]
  rw [hcond]
  simp

/-- Witness for the amended C7: raising `temp_warning_c` to 100 °C breaks
`temp_warning < temp_critical` and the self-check fails. -/
theorem startup_self_check_checked_orderings_witness :
    startup_self_check
      { anomaly_eval_init with temp_warning_c := F.num 100 } = false :=
  startup_self_check_checked_orderings
    { anomaly_eval_init with temp_warning_c := F.num 100 }
    (Or.inl (by decide))

/-! ## C9 — single-byte corruption fails validation -/

/-- XOR-fold with an arbitrary accumulator peels off the accumulator. -/
theorem foldl_xor_init (l : List Nat) (c : Nat) :
    l.foldl Nat.xor c = c ^^^ l.foldl Nat.xor 0 := by
  have hx : ∀ a b : Nat, Nat.xor a b = a ^^^ b := fun _ _ => rfl
  induction l generalizing c with
  | nil => simp
  | cons x xs ih =>
    simp only [List.foldl_cons]
    rw [ih (Nat.xor c x), ih (Nat.xor 0 x)]
    simp only [hx, Nat.zero_xor, Nat.xor_assoc]

/-- Changing one byte changes the XOR checksum by the XOR of old and new
byte. -/
theorem packet_checksum_set (l : List Nat) (i b : Nat) (h : i < l.length) :
    packet_checksum (l.set i b) = packet_checksum l ^^^ (l.getD i 0 ^^^ b) := by
  have hsplit : l = l.take i ++ l[i] :: l.drop (i + 1) := by
    conv_lhs => rw [← List.take_append_drop i l, List.drop_eq_getElem_cons h]
  have hset : l.set i b = l.take i ++ b :: l.drop (i + 1) :=
    List.set_eq_take_cons_drop b h
  have hgd : l.getD i 0 = l[i] := List.getD_eq_getElem l 0 h
  have hcs : packet_checksum l =
      packet_checksum (l.take i ++ l[i] :: l.drop (i + 1)) := by
    conv_lhs => rw [hsplit]
  rw [hgd, hset, hcs]
  unfold packet_checksum
  rw [List.foldl_append, List.foldl_append, List.foldl_cons, List.foldl_cons]
  rw [foldl_xor_init (l.drop (i + 1)) (Nat.xor (List.foldl Nat.xor 0 (l.take i)) b),
    foldl_xor_init (l.drop (i + 1)) (Nat.xor (List.foldl Nat.xor 0 (l.take i)) l[i])]
  generalize List.foldl Nat.xor 0 (l.take i) = x
  generalize List.foldl Nat.xor 0 (l.drop (i + 1)) = y
  generalize l[i] = v
  have hlc : ∀ a b c : Nat, a ^^^ (b ^^^ c) = b ^^^ (a ^^^ c) := fun a b c => by
    rw [← Nat.xor_assoc, Nat.xor_comm a b, Nat.xor_assoc]
  have hcancel : ∀ a b : Nat, a ^^^ (a ^^^ b) = b := fun a b => by
    rw [← Nat.xor_assoc, Nat.xor_self, Nat.zero_xor]
  show (x ^^^ b) ^^^ y = ((x ^^^ v) ^^^ y) ^^^ (v ^^^ b)
  simp only [Nat.xor_assoc]
  rw [hlc y v, hcancel, Nat.xor_comm b y]

/-- XOR-cancel on the left. -/
theorem xor_left_cancel {a b c : Nat} (h : a ^^^ b = a ^^^ c) : b = c := by
  have h2 := congrArg (fun x => a ^^^ x) h
  simpa [← Nat.xor_assoc, Nat.xor_self, Nat.zero_xor] using h2

/-- A 38-byte frame that validates stops validating when any single byte
other than byte 0 is replaced by a different value. -/
theorem packet_validate_pack_set_ne (l : List Nat) (hlen : l.length = 38)
    (hv : packet_validate_pack l = true) (i b : Nat) (h1 : 1 ≤ i) (h2 : i ≤ 37)
    (hb : b ≠ l.getD i 0) :
    packet_validate_pack (l.set i b) = false := by
  unfold packet_validate_pack at hv
  split_ifs at hv with hs hl hc
  rw [not_not] at hs hl hc
  have hset0 : (l.set i b).getD 0 0 = l.getD 0 0 := by
    rw [List.getD_eq_getElem?_getD, List.getD_eq_getElem?_getD,
      List.getElem?_set_ne (by omega)]
  by_cases hi1 : i = 1
  · subst hi1
    have hset1 : (l.set 1 b).getD 1 0 = b := by
      rw [List.getD_eq_getElem?_getD, List.getElem?_set_self (by omega)]
      rfl
    unfold packet_validate_pack
    rw [hset0, hs, if_neg (by simp), hset1]
    rw [if_pos (by rw [hl] at hb; exact hb)]
  · by_cases hi37 : i = 37
    · subst hi37
      have hset1 : (l.set 37 b).getD 1 0 = l.getD 1 0 := by
        rw [List.getD_eq_getElem?_getD, List.getD_eq_getElem?_getD,
          List.getElem?_set_ne (by omega)]
      have hset37 : (l.set 37 b).getD 37 0 = b := by
        rw [List.getD_eq_getElem?_getD, List.getElem?_set_self (by omega)]
        rfl
      have htake : (l.set 37 b).take 37 = l.take 37 := by
        rw [List.set_take, List.set_eq_of_length_le]
        rw [List.length_take, hlen]
        omega
      unfold packet_validate_pack
      rw [hset0, hs, if_neg (by simp), hset1, hl, if_neg (by simp), hset37, htake]
      rw [if_pos]
      rw [← hc]
      exact hb
    · have hset1 : (l.set i b).getD 1 0 = l.getD 1 0 := by
        rw [List.getD_eq_getElem?_getD, List.getD_eq_getElem?_getD,
          List.getElem?_set_ne (by omega)]
      have hset37 : (l.set i b).getD 37 0 = l.getD 37 0 := by
        rw [List.getD_eq_getElem?_getD, List.getD_eq_getElem?_getD,
          List.getElem?_set_ne (by omega)]
      have htake : (l.set i b).take 37 = (l.take 37).set i b := List.set_take
      have hgdt : (l.take 37).getD i 0 = l.getD i 0 := by
        rw [List.getD_eq_getElem?_getD, List.getD_eq_getElem?_getD,
          List.getElem?_take_of_lt (by omega)]
      have hcs : packet_checksum ((l.take 37).set i b) =
          packet_checksum (l.take 37) ^^^ (l.getD i 0 ^^^ b) := by
        rw [packet_checksum_set _ _ _ (by rw [List.length_take, hlen]; omega), hgdt]
      unfold packet_validate_pack
      rw [hset0, hs, if_neg (by simp), hset1, hl, if_neg (by simp), hset37, htake,
        hcs]
      rw [if_pos]
      rw [hc]
      intro hcontra
      have h0 : packet_checksum (l.take 37) ^^^ 0 =
          packet_checksum (l.take 37) ^^^ (l.getD i 0 ^^^ b) := by
        rw [Nat.xor_zero]
        conv_lhs => rw [hcontra]
      have := (xor_left_cancel h0).symm
      rw [Nat.xor_eq_zero] at this
      exact hb this.symm

set_option maxHeartbeats 4000000 in
/-- The encoded pack frame is 38 bytes long. -/
theorem packet_encode_pack_length (timestamp_ms : Nat) (sensors : SensorSnapshot)
    (anomaly : AnomalyResult) (state : SystemState) :
    (packet_encode_pack timestamp_ms sensors anomaly state).length = 38 :=
  rfl

set_option maxHeartbeats 4000000 in
/-- The encoded pack frame passes validation. -/
theorem packet_validate_encode_pack (timestamp_ms : Nat)
    (sensors : SensorSnapshot) (anomaly : AnomalyResult) (state : SystemState) :
    packet_validate_pack
      (packet_encode_pack timestamp_ms sensors anomaly state) = true := by
  have h0 : (packet_encode_pack timestamp_ms sensors anomaly state).getD 0 0 =
      PACKET_SYNC_BYTE := rfl
  have h1 : (packet_encode_pack timestamp_ms sensors anomaly state).getD 1 0 =
      PACKET_PACK_SIZE := rfl
  have h37 : (packet_encode_pack timestamp_ms sensors anomaly state).getD 37 0 =
      packet_checksum
        ((packet_encode_pack timestamp_ms sensors anomaly state).take 37) := rfl
  unfold packet_validate_pack
  rw [h0, h1]
  simp only [h37]
  simp

/-- C9: every pack-summary frame produced by `packet_encode_pack` passes
`packet_validate_pack`, and changing exactly one byte at any position
1..37 (anything but the sync byte) to any different value makes
`packet_validate_pack` fail. -/
theorem packet_single_byte_corruption_detected (timestamp_ms : Nat)
    (sensors : SensorSnapshot) (anomaly : AnomalyResult) (state : SystemState)
    (i b : Nat) (h1 : 1 ≤ i) (h2 : i ≤ 37)
    (hb : b ≠ (packet_encode_pack timestamp_ms sensors anomaly state).getD i 0) :
    packet_validate_pack (packet_encode_pack timestamp_ms sensors anomaly state) =
      true ∧
    packet_validate_pack
      ((packet_encode_pack timestamp_ms sensors anomaly state).set i b) = false :=
  ⟨packet_validate_encode_pack timestamp_ms sensors anomaly state,
   packet_validate_pack_set_ne _
     (packet_encode_pack_length timestamp_ms sensors anomaly state)
     (packet_validate_encode_pack timestamp_ms sensors anomaly state) i b h1 h2 hb⟩

/-- Witness for C9: corrupting the frame-type byte (position 2) of a
concrete encoded frame breaks validation. -/
theorem packet_single_byte_corruption_witness :
    packet_validate_pack (packet_encode_pack 0 startup_probe_snapshot
      quiet_result SystemState.STATE_NORMAL) = true ∧
    packet_validate_pack ((packet_encode_pack 0 startup_probe_snapshot
      quiet_result SystemState.STATE_NORMAL).set 2 0) = false :=
  packet_single_byte_corruption_detected 0 startup_probe_snapshot quiet_result
    SystemState.STATE_NORMAL 2 0 (by decide) (by decide) (by decide)

/-! ## C10 — well-formed module frame with out-of-range index -/

/-- A buffer already starting with the sync byte survives the sync scan. -/
theorem dropWhile_sync_head (l : List Nat) (h0 : l.getD 0 0 = INPUT_SYNC_BYTE)
    (hne : l ≠ []) : l.dropWhile (fun b => b != INPUT_SYNC_BYTE) = l := by
  cases l with
  | nil => exact absurd rfl hne
  | cons a t =>
    have ha : a = INPUT_SYNC_BYTE := by simpa using h0
    subst ha
    simp [List.dropWhile_cons]

/-- While fewer bytes than the module frame length have arrived (but the
sync/length/type header is that of a module frame), `try_parse_frame`
returns 0 and leaves the state unchanged. -/
theorem try_parse_frame_partial (frame : List Nat) (pr : Bool) (mr : Nat)
    (lp : List Nat) (lm : Fin 8 → List Nat)
    (h24 : frame.length = 24) (h0 : frame.getD 0 0 = 0xBB)
    (h1 : frame.getD 1 0 = 24) (h2 : frame.getD 2 0 = 2)
    (k : Nat) (hk : k ≤ 23) :
    try_parse_frame ⟨frame.take k, pr, mr, lp, lm⟩ =
      (⟨frame.take k, pr, mr, lp, lm⟩, 0) := by
  have hlen : (frame.take k).length = k := by
    rw [List.length_take, h24]
    omega
  by_cases hk3 : k < 3
  · unfold try_parse_frame
    rw [if_pos (by simpa [hlen] using hk3)]
  · have hk3' : 3 ≤ k := by omega
    have hgd : ∀ i, i < k → (frame.take k).getD i 0 = frame.getD i 0 := by
      intro i hi
      rw [List.getD_eq_getElem?_getD, List.getD_eq_getElem?_getD,
        List.getElem?_take_of_lt hi]
    have hne : frame.take k ≠ [] := by
      intro hcontra
      rw [hcontra] at hlen
      simp at hlen
      omega
    have hdrop : (frame.take k).dropWhile (fun b => b != INPUT_SYNC_BYTE) =
        frame.take k :=
      dropWhile_sync_head _ (by rw [hgd 0 (by omega)]; exact h0) hne
    unfold try_parse_frame
    rw [if_neg (by simp [hlen]; omega), hdrop]
    rw [if_neg (by simp [hlen]; omega)]
    rw [hgd 1 (by omega), hgd 2 (by omega), h1, h2]
    rw [if_neg (by simp [INPUT_PACK_FRAME_SIZE])]
    rw [if_neg (by simp [INPUT_MODULE_FRAME_SIZE])]
    rw [if_neg (by simp)]
    rw [if_pos (by rw [hlen]; omega)]

/-- Parsing a complete, checksummed module frame with module index ≥ 8:
the frame is consumed, the tracking state is untouched, and the return
value is 1 unless the cycle was already complete. -/
theorem try_parse_frame_module_index_out_of_range (frame : List Nat)
    (pr : Bool) (mr : Nat) (lp : List Nat) (lm : Fin 8 → List Nat)
    (h24 : frame.length = 24) (h0 : frame.getD 0 0 = 0xBB)
    (h1 : frame.getD 1 0 = 24) (h2 : frame.getD 2 0 = 2)
    (hmi : 8 ≤ frame.getD 3 0)
    (hcs : frame.getD 23 0 = compute_checksum (frame.take 23)) :
    try_parse_frame ⟨frame, pr, mr, lp, lm⟩ =
      (⟨[], pr, mr, lp, lm⟩, if pr && (mr == 0xFF) then 2 else 1) := by
  have hne : frame ≠ [] := by
    intro hcontra
    rw [hcontra] at h24
    simp at h24
  have hdrop : frame.dropWhile (fun b => b != INPUT_SYNC_BYTE) = frame :=
    dropWhile_sync_head _ h0 hne
  unfold try_parse_frame
  rw [if_neg (by rw [h24]; omega), hdrop]
  rw [if_neg (by rw [h24]; omega)]
  rw [h1, h2]
  rw [if_neg (by simp [INPUT_PACK_FRAME_SIZE])]
  rw [if_neg (by simp [INPUT_MODULE_FRAME_SIZE])]
  rw [if_neg (by simp)]
  rw [if_neg (by rw [h24]; omega)]
  rw [show (24 : Nat) - 1 = 23 from rfl]
  rw [if_neg (by rw [hcs]; simp)]
  rw [if_neg (by simp)]
  rw [dif_neg (by omega)]
  have hdrop24 : frame.drop 24 = [] := by
    rw [← h24]
    exact List.drop_length frame
  simp only [hdrop24]

/-- Feeding the first k ≤ 23 bytes of the frame one at a time accumulates
them in the buffer and keeps returning 0. -/
theorem input_rx_feed_list_take (frame : List Nat) (pr : Bool) (mr : Nat)
    (lp : List Nat) (lm : Fin 8 → List Nat)
    (h24 : frame.length = 24) (h0 : frame.getD 0 0 = 0xBB)
    (h1 : frame.getD 1 0 = 24) (h2 : frame.getD 2 0 = 2) :
    ∀ k, k ≤ 23 →
      input_rx_feed_list ⟨[], pr, mr, lp, lm⟩ (frame.take k) =
        (⟨frame.take k, pr, mr, lp, lm⟩, 0) := by
  intro k
  induction k with
  | zero => intro _; rfl
  | succ n ih =>
    intro hk
    have hn : n ≤ 23 := by omega
    have hidx : n < frame.length := by omega
    have htake : frame.take (n + 1) = frame.take n ++ [frame[n]] := by
      rw [List.take_succ, List.getElem?_eq_getElem hidx]
      rfl
    unfold input_rx_feed_list
    rw [htake, List.foldl_append]
    have ihu : List.foldl (fun acc b => input_rx_feed acc.1 b)
        (⟨[], pr, mr, lp, lm⟩, 0) (frame.take n) =
        (⟨frame.take n, pr, mr, lp, lm⟩, 0) := ih hn
    rw [ihu]
    show input_rx_feed ⟨frame.take n, pr, mr, lp, lm⟩ frame[n] = _
    unfold input_rx_feed
    have hlen : (frame.take n).length = n := by
      rw [List.length_take, h24]
      omega
    rw [if_pos (by rw [hlen]; unfold INPUT_RX_BUF_SIZE; omega)]
    show try_parse_frame ⟨frame.take n ++ [frame[n]], pr, mr, lp, lm⟩ = _
    rw [← htake]
    exact try_parse_frame_partial frame pr mr lp lm h24 h0 h1 h2 (n + 1) hk

/-- C10: a module frame with valid sync, length, type and checksum but
module index ≥ 8 is silently swallowed — fed byte-by-byte into a parser
whose buffer is empty and whose cycle is not already complete, the final
`input_rx_feed` consumes the whole frame and returns 1 (FrameParsed), and
neither `last_modules` nor `modules_received` nor the pack tracking is
touched, so such frames never complete an inbound cycle. -/
theorem module_frame_index_out_of_range_swallowed (frame : List Nat)
    (pr : Bool) (mr : Nat) (lp : List Nat) (lm : Fin 8 → List Nat)
    (h24 : frame.length = 24) (h0 : frame.getD 0 0 = 0xBB)
    (h1 : frame.getD 1 0 = 24) (h2 : frame.getD 2 0 = 2)
    (hmi : 8 ≤ frame.getD 3 0)
    (hcs : frame.getD 23 0 = compute_checksum (frame.take 23))
    (hnc : ¬(pr = true ∧ mr = 0xFF)) :
    input_rx_feed_list ⟨[], pr, mr, lp, lm⟩ frame =
      (⟨[], pr, mr, lp, lm⟩, 1) := by
  have h23 : (23 : Nat) < frame.length := by omega
  have hsplit : frame = frame.take 23 ++ [frame[23]] := by
    have ht := List.take_succ (l := frame) (n := 23)
    rw [List.getElem?_eq_getElem h23] at ht
    rw [List.take_of_length_le (by omega)] at ht
    simpa using ht
  conv_lhs => rw [hsplit]
  unfold input_rx_feed_list
  rw [List.foldl_append]
  have ihu : List.foldl (fun acc b => input_rx_feed acc.1 b)
      (⟨[], pr, mr, lp, lm⟩, 0) (frame.take 23) =
      (⟨frame.take 23, pr, mr, lp, lm⟩, 0) :=
    input_rx_feed_list_take frame pr mr lp lm h24 h0 h1 h2 23 le_rfl
  rw [ihu]
  show input_rx_feed ⟨frame.take 23, pr, mr, lp, lm⟩ frame[23] = _
  unfold input_rx_feed
  have hlen : (frame.take 23).length = 23 := by
    rw [List.length_take, h24]
    omega
  rw [if_pos (by rw [hlen]; unfold INPUT_RX_BUF_SIZE; omega)]
  show try_parse_frame ⟨frame.take 23 ++ [frame[23]], pr, mr, lp, lm⟩ = _
  rw [← hsplit]
  rw [try_parse_frame_module_index_out_of_range frame pr mr lp lm h24 h0 h1 h2
    hmi hcs]
  have hres : (pr && (mr == 0xFF)) = false := by
    cases pr
    · rfl
    · simp only [Bool.true_and]
      rw [beq_eq_false_iff_ne]
      intro hmr
      exact hnc ⟨rfl, hmr⟩
  rw [hres]
  rfl

/-- Witness for C10: a concrete checksummed module frame with index 8 fed
into the freshly initialised parser. -/
theorem module_frame_index_witness :
    input_rx_feed_list input_rx_init module9_frame =
      ({ input_rx_init with buf := [] }, 1) :=
  module_frame_index_out_of_range_swallowed module9_frame false 0
    (List.replicate 30 0) (fun _ => List.replicate 24 0)
    (by decide) (by decide) (by decide) (by decide) (by decide) (by decide)
    (by simp)
